import Mathlib

/-!
Verification of the EnCode ingredient-analysis pipeline.

This file gives a shallow embedding of the analysis request/response
pipeline of the EnCode repository: the client-side service
(`src/services/analysis.js`: input validation, session guard, remote
invocation error taxonomy, response-schema validation, and the fallback
heuristic engine) and the server-side edge function
(`supabase/functions/analyze_product/index.ts`: input validation, LLM
response validation, bounded retry with exponential backoff, and
persistence), together with theorems settling the specification claims.

JavaScript strings are modelled as Lean strings; JavaScript string
operations (`includes`, `toLowerCase`, `trim`, comma counting via the
global regexp match) are embedded as explicit functions on character
lists.  Parsed JSON values are modelled by the inductive type `Json`.
-/

set_option maxHeartbeats 1000000

namespace Encode

/-! ## JavaScript string primitives -/

/-- Does `needle` occur as a contiguous sublist of `hay`? -/
def listInfixOf (needle : List Char) : List Char → Bool
  | [] => needle.isEmpty
  | c :: rest => needle.isPrefixOf (c :: rest) || listInfixOf needle rest

/-- JavaScript `hay.includes(needle)`. -/
def jsIncludes (hay needle : String) : Bool :=
  listInfixOf needle.data hay.data

/-- JavaScript `s.toLowerCase()` (ASCII-relevant part). -/
def jsToLower (s : String) : String :=
  ⟨s.data.map Char.toLower⟩

/-- JavaScript `s.trim()`: strip leading and trailing whitespace. -/
def jsTrim (s : String) : String :=
  ⟨((s.data.dropWhile Char.isWhitespace).reverse.dropWhile Char.isWhitespace).reverse⟩

/-- JavaScript `s.length`. -/
def jsLen (s : String) : Nat :=
  s.data.length

/-- JavaScript `(s.match(/,/g) || []).length`: the number of commas. -/
def countCommas (s : String) : Nat :=
  s.data.count ','

/-- JavaScript `xs.join(sep)`. -/
def jsJoin (sep : String) : List String → String
  | [] => ""
  | [x] => x
  | x :: y :: xs => x ++ sep ++ jsJoin sep (y :: xs)

/-! ## Parsed JSON values -/

/-- A parsed JSON value (`null` also stands for JavaScript `undefined`). -/
inductive Json where
  | null
  | bool (b : Bool)
  | num (n : Int)
  | str (s : String)
  | arr (items : List Json)
  | obj (fields : List (String × Json))

/-- JavaScript property read `j[f]` for a non-numeric key `f`:
`none` models `undefined`. -/
def jsGet (j : Json) (f : String) : Option Json :=
  match j with
  | .obj fields => fields.lookup f
  | _ => none

/-- JavaScript `f in j` for a non-numeric key `f`. -/
def jsHasField (j : Json) (f : String) : Bool :=
  match j with
  | .obj fields => fields.any (fun p => p.1 == f)
  | _ => false

/-- JavaScript `typeof j === "object" && j !== null` combined with the
truthiness test used by the client (`!data ||` rejects `null`): true
exactly for arrays and objects. -/
def isObjectLike (j : Json) : Bool :=
  match j with
  | .arr _ => true
  | .obj _ => true
  | _ => false

/-- `typeof v === "string"` on an optional property value. -/
def isStringVal : Option Json → Bool
  | some (.str _) => true
  | _ => false

/-- JavaScript object spread `{...base, ...extra}` where `extra` is a
literal list of key/value pairs: keys of `extra` override keys of
`base`. -/
def jsSpreadWith (base : Json) (extra : List (String × Json)) : Json :=
  match base with
  | .obj fields => .obj ((fields.filter (fun p => !(extra.any (fun q => q.1 == p.1)))) ++ extra)
  | _ => .obj extra

/-! ## Client-side input validation (`validateInput`, analysis.js 11-33) -/

def MIN_INPUT_LENGTH : Nat := 10
def MAX_INPUT_LENGTH : Nat := 5000

/-- Result of `validateInput`. -/
inductive ValidationResult where
  | invalid (error : String)
  | valid (text : String)

/-- `validateInput(ingredients)` from analysis.js.  The argument is
`none` when the caller passed a non-string value (`null`, `undefined`,
a number, ...); `some s` is a string argument.  `!ingredients` is also
true for the empty string. -/
def validateInput (ingredients : Option String) : ValidationResult :=
  match ingredients with
  | none => .invalid "Please enter ingredient text"
  | some s =>
    if s == "" then .invalid "Please enter ingredient text"
    else
      let trimmed := jsTrim s
      if jsLen trimmed < MIN_INPUT_LENGTH then
        .invalid "Please enter a complete ingredient list (at least 10 characters)"
      else if jsLen trimmed > MAX_INPUT_LENGTH then
        .invalid "Ingredient list is too long. Please limit to 5000 characters."
      else .valid trimmed

/-- Whether `validateInput` accepted. -/
def validateInputAccepts (ingredients : Option String) : Bool :=
  match validateInput ingredients with
  | .valid _ => true
  | .invalid _ => false

/-! ## Server-side input validation (index.ts 250-286) -/

/-- The server-side mirror of the input validation in the edge
function `serve`: `none` models a missing or non-string `input_text`
(also rejected when the string is empty, by `!input_text`).  Errors are
(status, message) pairs. -/
def serveValidateInput (input_text : Option String) : Except (Nat × String) String :=
  match input_text with
  | none => .error (400, "input_text is required and must be a string")
  | some s =>
    if s == "" then .error (400, "input_text is required and must be a string")
    else
      let trimmedInput := jsTrim s
      if jsLen trimmedInput < MIN_INPUT_LENGTH then
        .error (400, "Input must be at least " ++ toString MIN_INPUT_LENGTH ++ " characters")
      else if jsLen trimmedInput > MAX_INPUT_LENGTH then
        .error (400, "Input must not exceed " ++ toString MAX_INPUT_LENGTH ++ " characters")
      else .ok trimmedInput

/-- Whether the server-side validation accepted. -/
def serveValidateInputAccepts (input_text : Option String) : Bool :=
  match serveValidateInput input_text with
  | .ok _ => true
  | .error _ => false

/-! ## Fallback heuristic engine (`looksLikeIngredients`,
`buildFallbackAnalysis`, analysis.js 182-410) -/

/-- The curated list of common food-ingredient signal words
(analysis.js 186-216). -/
def ingredientSignals : List String :=
  ["water", "salt", "sugar", "flour", "oil", "acid", "flavor", "extract",
   "starch", "syrup", "milk", "cream", "butter", "egg", "wheat", "soy",
   "corn", "rice", "vitamin", "sodium", "calcium", "potassium", "natural",
   "artificial", "modified", "hydrolyzed", "concentrate", "powder", "dried"]

/-- Number of signal words found in the lowercased text
(`ingredientSignals.filter((s) => lower.includes(s)).length`). -/
def signalMatchCount (text : String) : Nat :=
  (ingredientSignals.filter (fun s => jsIncludes (jsToLower text) s)).length

/-- `looksLikeIngredients(text)` from analysis.js 183-221. -/
def looksLikeIngredients (text : String) : Bool :=
  signalMatchCount text ≥ 2 || (decide (countCommas text ≥ 2) && signalMatchCount text ≥ 1)

/-- One observation/factor of a fallback analysis. -/
structure Observation where
  observation : String
  why : String
deriving DecidableEq

/-- The shape of a fallback analysis result (analysis.js 223-410). -/
structure FallbackAnalysis where
  judgment : String
  observations : List Observation
  tradeoff : String
  limitations : String
  confidence : String
deriving DecidableEq

/-- The fixed result returned when the input does not look like an
ingredient list (analysis.js 226-241). -/
def implausibleResult : FallbackAnalysis where
  judgment :=
    "This doesn\x27t look like an ingredient list. Paste what you see on the package."
  observations :=
    [⟨"Nothing to go on",
      "Without actual ingredients, there\x27s no way to frame what kind of product this is."⟩]
  tradeoff :=
    "Pasting real ingredients gives you clarity; skipping that step leaves you guessing."
  limitations :=
    "Can\x27t determine product type, purpose, or what kind of decision this represents."
  confidence := "low"

def sweeteners : List String :=
  ["sugar", "fructose", "glucose", "corn syrup", "dextrose", "sucralose",
   "acesulfame", "aspartame", "honey", "molasses", "stevia"]

def preservatives : List String :=
  ["benzoate", "sorbate", "nitrite", "nitrate", "propionate", "sulfite",
   "bht", "bha", "tbhq"]

def emulsifiers : List String :=
  ["lecithin", "gum", "carrageenan", "polysorbate", "mono-", "di-",
   "xanthan", "gellan", "pectin"]

def colors : List String :=
  ["red 40", "yellow 5", "yellow 6", "blue 1", "caramel color", "annatto",
   "beta carotene"]

def naturalIndicators : List String :=
  ["organic", "natural flavor", "sea salt", "cane sugar", "whole grain"]

/-- `(text.match(/,/g) || []).length + 1` (analysis.js 244). -/
def ingredientCount (text : String) : Nat :=
  countCommas text + 1

def sweetenerMatches (text : String) : List String :=
  sweeteners.filter (fun s => jsIncludes (jsToLower text) s)

def preservativeMatches (text : String) : List String :=
  preservatives.filter (fun s => jsIncludes (jsToLower text) s)

def emulsifierMatches (text : String) : List String :=
  emulsifiers.filter (fun s => jsIncludes (jsToLower text) s)

def colorMatches (text : String) : List String :=
  colors.filter (fun s => jsIncludes (jsToLower text) s)

def naturalMatches (text : String) : List String :=
  naturalIndicators.filter (fun s => jsIncludes (jsToLower text) s)

/-- The observations pushed by the six trigger checks of
`buildFallbackAnalysis` (analysis.js 304-357), before the
empty-list fixup and the cap at three entries. -/
def fallbackObservationsRaw (text : String) : List Observation :=
  (if ingredientCount text > 15 then
    [⟨"Long ingredient list",
      "Around " ++ toString (ingredientCount text) ++
        " ingredients suggests this is built for convenience and shelf life rather than simplicity."⟩]
   else if ingredientCount text ≤ 5 then
    [⟨"Short, simple list",
      "Only about " ++ toString (ingredientCount text) ++
        " ingredients — this looks like a relatively basic product."⟩]
   else [])
  ++ (if (sweetenerMatches text).length > 1 then
       [⟨"Multiple sweetening agents",
         "Using more than one sweetener often points to a product designed around taste and cost balance."⟩]
      else if (sweetenerMatches text).length == 1 then
       [⟨"Sweetness is central",
         "A sweetener listed suggests taste is a primary feature of this product."⟩]
      else [])
  ++ (if (preservativeMatches text).length > 0 then
       [⟨"Built to last on a shelf",
         "Preservatives indicate this is designed for a longer shelf life."⟩]
      else [])
  ++ (if (emulsifierMatches text).length > 0 then
       [⟨"Texture is engineered",
         "Stabilizers and emulsifiers suggest consistency and texture are priorities."⟩]
      else [])
  ++ (if (colorMatches text).length > 0 then
       [⟨"Color is added for appeal",
         "Added colors point to visual presentation being part of the product\x27s design."⟩]
      else [])
  ++ (if (naturalMatches text).length ≥ 2 then
       [⟨"Positioned as natural",
         "Terms like \x27organic\x27 or \x27natural\x27 suggest the product is marketed toward simpler preferences."⟩]
      else [])

/-- The observations list after the "ensure at least one observation"
fixup (analysis.js 360-365). -/
def fallbackObservations (text : String) : List Observation :=
  if (fallbackObservationsRaw text).length == 0 then
    [⟨"Standard product",
      "Nothing stands out — this looks like a conventional product."⟩]
  else fallbackObservationsRaw text

/-- `observations.slice(0, 3)` (analysis.js 368). -/
def topObservations (text : String) : List Observation :=
  (fallbackObservations text).take 3

/-- Confidence derivation (analysis.js 370-375). -/
def fallbackConfidence (text : String) : String :=
  if (topObservations text).length ≥ 3 then "medium"
  else if (topObservations text).length ≥ 2 then "low"
  else "low"

/-- Gains list (analysis.js 378-384). -/
def fallbackGains (text : String) : List String :=
  (if (sweetenerMatches text).length > 0 then ["taste"] else [])
  ++ (if (preservativeMatches text).length > 0 then ["shelf life"] else [])
  ++ (if (emulsifierMatches text).length > 0 then ["consistent texture"] else [])
  ++ (if ingredientCount text ≤ 5 then ["simplicity"] else [])

/-- Costs list (analysis.js 385-387). -/
def fallbackCosts (text : String) : List String :=
  (if ingredientCount text > 10 then ["simplicity"] else [])
  ++ (if (preservativeMatches text).length > 0 || (emulsifierMatches text).length > 0 then
       ["minimal ingredients"] else [])

/-- The composed tradeoff sentence (analysis.js 389-395). -/
def fallbackTradeoff (text : String) : String :=
  "You get "
  ++ (if (fallbackGains text).length > 0 then
        jsJoin " and " ((fallbackGains text).take 2) else "convenience")
  ++ "; you give up "
  ++ (if (fallbackCosts text).length > 0 then
        jsJoin " and " ((fallbackCosts text).take 2) else "a shorter ingredient list")
  ++ "."

/-- Product classification (analysis.js 397-400). -/
def fallbackProductType (text : String) : String :=
  if ingredientCount text > 10 then "convenience-oriented product"
  else "relatively straightforward product"

/-- The main-branch result of `buildFallbackAnalysis`
(analysis.js 402-409). -/
def fallbackMainResult (text : String) : FallbackAnalysis where
  judgment :=
    "This looks like a " ++ fallbackProductType text ++ ". (Offline — limited detail available.)"
  observations := topObservations text
  tradeoff := fallbackTradeoff text
  limitations :=
    "Can\x27t determine exact quantities, how often you eat this, or how it fits into your day. This is a rough read based on the ingredient list alone."
  confidence := fallbackConfidence text

/-- `buildFallbackAnalysis(text)` from analysis.js 223-410. -/
def buildFallbackAnalysis (text : String) : FallbackAnalysis :=
  if looksLikeIngredients text then fallbackMainResult text
  else implausibleResult

/-- The JSON value corresponding to one fallback observation object
literal `{ observation, why }`. -/
def Observation.toJson (o : Observation) : Json :=
  .obj [("observation", .str o.observation), ("why", .str o.why)]

/-- The JSON value corresponding to the object literal returned by
`buildFallbackAnalysis`. -/
def FallbackAnalysis.toJson (a : FallbackAnalysis) : Json :=
  .obj [("judgment", .str a.judgment),
        ("observations", .arr (a.observations.map Observation.toJson)),
        ("tradeoff", .str a.tradeoff),
        ("limitations", .str a.limitations),
        ("confidence", .str a.confidence)]

/-! ## Client pipeline (`analyzeIngredients`, analysis.js 39-180) -/

/-- An authenticated session (`session.user.id`, `session.access_token`). -/
structure Session where
  userId : String
  accessToken : String

/-- Outcome of `supabase.auth.getSession()`: the call itself errored,
or it returned an optional session. -/
inductive SessionOutcome where
  | sessErr
  | got (session : Option Session)

/-- The error object possibly returned by
`supabase.functions.invoke` (`error.message`, `error.status`). -/
structure ErrObj where
  message : Option String
  status : Option Nat

/-- Outcome of the `supabase.functions.invoke` call: it resolved with
`{ data, error }`, or the awaited expression threw an exception with
the given `name` and `message` (e.g. an abort, or a fetch-level
failure). -/
inductive InvokeOutcome where
  | resolved (data : Json) (error : Option ErrObj)
  | thrown (name : String) (message : String)

/-- `error.message?.includes(s)` (false when `message` is absent). -/
def errMsgIncludes (e : ErrObj) (s : String) : Bool :=
  match e.message with
  | some m => jsIncludes m s
  | none => false

/-- `m || default` for the optional message (`undefined` and `""` are
falsy). -/
def msgOrDefault (m : Option String) (dflt : String) : String :=
  match m with
  | some s => if s == "" then dflt else s
  | none => dflt

/-- The message of the `Error` thrown by the `if (error)` branch of
`analyzeIngredients` (analysis.js 78-109). -/
def invokeErrorMessage (e : ErrObj) : String :=
  if errMsgIncludes e "FunctionsFetchError" then
    "Unable to reach the analysis service. Please check your connection and try again."
  else if errMsgIncludes e "non-2xx" then
    "Analysis service error. Please try again in a moment."
  else if errMsgIncludes e "AuthApiError" || e.status == some 401 then
    "Session expired. Please sign in again."
  else if e.status == some 400 then
    msgOrDefault e.message "Invalid request to analysis service."
  else if errMsgIncludes e "401" || errMsgIncludes e "unauthorized" then
    "Session expired. Please sign in again."
  else
    msgOrDefault e.message "Failed to analyze ingredients. Please try again."

/-- The transport-failure markers tested by the catch block
(analysis.js 152-157). -/
def isNetworkish (message : String) : Bool :=
  jsIncludes message "Failed to send a request" ||
  jsIncludes message "Failed to fetch" ||
  jsIncludes message "CORS" ||
  jsIncludes message "ERR_FAILED" ||
  jsIncludes message "FunctionsFetchError"

/-- Outcome of one `analyzeIngredients` run: the returned value or the
message of the thrown `Error`. -/
inductive ClientOutcome where
  | ok (data : Json)
  | err (message : String)

/-- A complete `analyzeIngredients` run: its outcome, whether the
remote function was invoked, and the records passed to
`saveLocalAnalysis` (in order). -/
structure ClientRun where
  outcome : ClientOutcome
  remoteCalled : Bool
  localSaves : List Json

/-- The record handed to `saveLocalAnalysis`:
`{...data, input_text: text, user_id: userId}`. -/
def localRecord (data : Json) (text userId : String) : Json :=
  jsSpreadWith data [("input_text", .str text), ("user_id", .str userId)]

/-- The catch block of `analyzeIngredients` (analysis.js 142-179),
applied to a caught exception with the given `name` and `message`.
The remote call has already been made when this block runs. -/
def handleCaughtError (text userId : String) (name message : String) : ClientRun :=
  if name == "AbortError" then
    ⟨.err "Analysis is taking too long. Please try again with a shorter ingredient list.",
     true, []⟩
  else if isNetworkish message then
    ⟨.ok (buildFallbackAnalysis text).toJson, true,
     [localRecord (buildFallbackAnalysis text).toJson text userId]⟩
  else if message != "" && !(jsIncludes message "fetch") then
    ⟨.err message, true, []⟩
  else
    ⟨.err "Unable to analyze ingredients. Please check your connection and try again.",
     true, []⟩

/-- The field names required of a response by the client
(analysis.js 120-126). -/
def clientRequiredFields : List String :=
  ["judgment", "observations", "tradeoff", "limitations", "confidence"]

/-- `analyzeIngredients(ingredients)` from analysis.js 39-180, as a
function of the session outcome and the outcome of the (at most one)
remote invocation. -/
def analyzeIngredients (ingredients : Option String) (sess : SessionOutcome)
    (inv : InvokeOutcome) : ClientRun :=
  match validateInput ingredients with
  | .invalid e => ⟨.err e, false, []⟩
  | .valid text =>
    match sess with
    | .sessErr => ⟨.err "Session error. Please sign in again.", false, []⟩
    | .got none =>
      ⟨.err "You must be signed in to analyze ingredients. Please sign in and try again.",
       false, []⟩
    | .got (some session) =>
      match inv with
      | .thrown name message => handleCaughtError text session.userId name message
      | .resolved data error =>
        match error with
        | some e => handleCaughtError text session.userId "Error" (invokeErrorMessage e)
        | none =>
          if !(isObjectLike data) then
            handleCaughtError text session.userId "Error"
              "Invalid response from analysis service. Please try again."
          else if !(clientRequiredFields.all (fun f => jsHasField data f)) then
            handleCaughtError text session.userId "Error"
              "Incomplete analysis response. Please try again."
          else
            ⟨.ok data, true, [localRecord data text session.userId]⟩

/-! ## Server-side LLM response validation and retry
(index.ts 113-167 and 288-356) -/

/-- `validateResponse(data)` from index.ts 114-132. -/
def validateResponse (data : Json) : Bool :=
  if !(isObjectLike data) then false
  else
    isStringVal (jsGet data "judgment") &&
    isStringVal (jsGet data "tradeoffs") &&
    isStringVal (jsGet data "uncertainty") &&
    (match jsGet data "confidence" with
     | some (.str c) => ["low", "medium", "high"].contains c
     | _ => false) &&
    (match jsGet data "key_factors" with
     | some (.arr factors) =>
       factors.all (fun f =>
         isObjectLike f && isStringVal (jsGet f "factor") && isStringVal (jsGet f "explanation"))
     | _ => false)

/-- Outcome of one upstream model call inside `callLLM`: the fetch (or
response decoding) failed with an exception carrying the given
message, or it yielded a parsed JSON content value. -/
inductive LLMAttempt where
  | fails (message : String)
  | content (parsed : Json)

/-- `callLLM` (index.ts 135-167) as a function of the attempt outcome:
it propagates upstream failures and raises on parsed content that does
not satisfy `validateResponse`. -/
def callLLM (a : LLMAttempt) : Except String Json :=
  match a with
  | .fails message => .error message
  | .content parsed =>
    if validateResponse parsed then .ok parsed
    else .error "LLM response does not match required schema"

def MAX_RETRIES : Nat := 2

def unavailableMessage : String :=
  "Analysis service temporarily unavailable. Please try again."

/-- One run of the retry loop: its result (`error` is the 503 body
message), the number of `callLLM` attempts made, and the backoff waits
(in milliseconds) performed between attempts, in order. -/
structure RetryRun where
  result : Except String Json
  attempts : Nat
  backoffsMs : List Nat

/-- The `while (retries <= MAX_RETRIES)` loop of `serve`
(index.ts 288-319), entered with the given current value of the
`retries` counter; `oracle k` is the outcome of the model call made
when `retries = k`. -/
def llmRetryLoop (oracle : Nat → LLMAttempt) (retries : Nat) : RetryRun :=
  match callLLM (oracle retries) with
  | .ok r => ⟨.ok r, retries + 1, []⟩
  | .error _ =>
    if h : retries + 1 > MAX_RETRIES then ⟨.error unavailableMessage, retries + 1, []⟩
    else
      let rest := llmRetryLoop oracle (retries + 1)
      ⟨rest.result, rest.attempts, 1000 * 2 ^ retries :: rest.backoffsMs⟩
termination_by MAX_RETRIES + 1 - retries
decreasing_by simp [MAX_RETRIES] at h ⊢; omega

/-- The model-invocation stage of `serve`: the retry loop started with
`retries = 0`. -/
def serveLLMStage (oracle : Nat → LLMAttempt) : RetryRun :=
  llmRetryLoop oracle 0

/-! ## Server-side persistence stage (index.ts 321-356) -/

/-- Outcome of the `insert(...).select().single()` call: the saved row
as returned by the database, or a database error. -/
inductive DbOutcome where
  | saved (row : Json)
  | failed

def dbFailWarning : String :=
  "Analysis generated but could not be saved to history"

/-- The row payload handed to `insert` (index.ts 324-332). -/
def insertPayload (userId inputText : String) (llm : Json) : Json :=
  .obj [("user_id", .str userId),
        ("input_text", .str inputText),
        ("judgment", (jsGet llm "judgment").getD .null),
        ("key_factors", (jsGet llm "key_factors").getD .null),
        ("tradeoffs", (jsGet llm "tradeoffs").getD .null),
        ("uncertainty", (jsGet llm "uncertainty").getD .null),
        ("confidence", (jsGet llm "confidence").getD .null)]

/-- An HTTP response returned by `serve`. -/
structure HttpResponse where
  status : Nat
  body : Json

/-- The model-and-persist stages of `serve`: which payload (if any) was
written to the `analyses` store, and the HTTP response. `db` maps the
attempted insert payload to its outcome. -/
structure ServeRun where
  inserted : Option Json
  response : HttpResponse

/-- `serve` from step 3 onwards (index.ts 288-356): retry loop, then
database insert, then response. -/
def servePostValidation (userId inputText : String) (oracle : Nat → LLMAttempt)
    (db : Json → DbOutcome) : ServeRun :=
  match (serveLLMStage oracle).result with
  | .error e => ⟨none, ⟨503, .obj [("error", .str e)]⟩⟩
  | .ok llm =>
    match db (insertPayload userId inputText llm) with
    | .saved row => ⟨some (insertPayload userId inputText llm), ⟨200, row⟩⟩
    | .failed =>
      ⟨none, ⟨200, jsSpreadWith llm [("id", .null), ("warning", .str dbFailWarning)]⟩⟩

/-! ## Claim theorems -/

/-- C4: the Input Validator (and its server-side mirror) accepts
exactly the string inputs whose trimmed length lies in [10, 5000];
non-string/empty input, too-short input and too-long input are each
rejected with the corresponding boundary message. -/
theorem input_validator_boundaries (input : Option String) :
    (validateInputAccepts input = true ↔
      ∃ s, input = some s ∧ MIN_INPUT_LENGTH ≤ jsLen (jsTrim s) ∧
        jsLen (jsTrim s) ≤ MAX_INPUT_LENGTH)
  ∧ (serveValidateInputAccepts input = validateInputAccepts input)
  ∧ ((input = none ∨ input = some "") →
      validateInput input = .invalid "Please enter ingredient text")
  ∧ (∀ s, input = some s → s ≠ "" → jsLen (jsTrim s) < MIN_INPUT_LENGTH →
      validateInput input =
        .invalid "Please enter a complete ingredient list (at least 10 characters)")
  ∧ (∀ s, input = some s → jsLen (jsTrim s) > MAX_INPUT_LENGTH →
      validateInput input =
        .invalid "Ingredient list is too long. Please limit to 5000 characters.") := by
  rcases input with _ | s
  · refine ⟨by simp [validateInputAccepts, validateInput], rfl, fun _ => rfl, ?_, ?_⟩ <;>
      intro s h <;> exact absurd h (by simp)
  · constructor
    · simp only [validateInputAccepts, validateInput, serveValidateInputAccepts,
        serveValidateInput]
      split_ifs with h0 h1 h2
      · have hs : s = "" := by simpa using h0
        subst hs
        simp [jsTrim, jsLen, MIN_INPUT_LENGTH, MAX_INPUT_LENGTH]
      · simp only [Bool.false_eq_true, false_iff]
        rintro ⟨t, ht, h10, _⟩
        obtain rfl : s = t := by injection ht
        omega
      · simp only [Bool.false_eq_true, false_iff]
        rintro ⟨t, ht, _, h5000⟩
        obtain rfl : s = t := by injection ht
        omega
      · simp only [true_iff]
        exact ⟨s, rfl, by omega, by omega⟩
    · refine ⟨?_, ?_, ?_, ?_⟩
      · simp only [validateInputAccepts, validateInput, serveValidateInputAccepts,
          serveValidateInput]
        split_ifs <;> rfl
      · rintro (h | h)
        · exact absurd h (by simp)
        · obtain rfl : s = "" := by injection h
          rfl
      · intro t ht hne hlt
        obtain rfl : s = t := by injection ht
        have h0 : (s == "") = false := by
          simpa using hne
        simp [validateInput, h0, hlt]
      · intro t ht hgt
        obtain rfl : s = t := by injection ht
        have hne : s ≠ "" := by
          rintro rfl
          simp [jsTrim, jsLen] at hgt
        have h0 : (s == "") = false := by simpa using hne
        have hlt : ¬ jsLen (jsTrim s) < MIN_INPUT_LENGTH := by
          simp [MIN_INPUT_LENGTH, MAX_INPUT_LENGTH] at hgt ⊢
          omega
        simp [validateInput, h0, hlt, hgt]

/-- C4 witness: the 10-character boundary is accepted and a 9-character
input is rejected with the "at least 10 characters" message. -/
theorem input_validator_boundaries_witness :
    validateInputAccepts (some "0123456789") = true
  ∧ validateInput (some "012345678") =
      .invalid "Please enter a complete ingredient list (at least 10 characters)" :=
  ⟨((input_validator_boundaries (some "0123456789")).1).mpr
      ⟨"0123456789", rfl, by decide, by decide⟩,
   (input_validator_boundaries (some "012345678")).2.2.2.1 "012345678" rfl
      (by decide) (by decide)⟩

/-- C8: on the exact input "Water, Sugar, Citric Acid, Sodium Benzoate,
Red 40, Natural Flavor" the fallback heuristic engine returns at least
3 observations and confidence "medium". -/
theorem fallback_known_input_medium :
    3 ≤ (buildFallbackAnalysis
          "Water, Sugar, Citric Acid, Sodium Benzoate, Red 40, Natural Flavor").observations.length
  ∧ (buildFallbackAnalysis
      "Water, Sugar, Citric Acid, Sodium Benzoate, Red 40, Natural Flavor").confidence
      = "medium" := by
  constructor
  · decide
  · decide

/-! ### Helper lemmas -/

lemma looksLike_false_iff (text : String) :
    looksLikeIngredients text = false ↔
      signalMatchCount text < 2 ∧ (countCommas text < 2 ∨ signalMatchCount text = 0) := by
  simp only [looksLikeIngredients, Bool.or_eq_false_iff, Bool.and_eq_false_iff,
    decide_eq_false_iff_not, not_le]
  omega

lemma fallbackMainResult_ne_implausibleResult (text : String) :
    fallbackMainResult text ≠ implausibleResult := by
  intro h
  have hj := congrArg FallbackAnalysis.judgment h
  simp only [fallbackMainResult, implausibleResult, fallbackProductType] at hj
  split_ifs at hj <;> exact absurd hj (by decide)

lemma fallbackConfidence_low_or_medium (text : String) :
    fallbackConfidence text = "low" ∨ fallbackConfidence text = "medium" := by
  unfold fallbackConfidence
  split_ifs <;> simp

lemma buildFallback_confidence_cases (text : String) :
    (buildFallbackAnalysis text).confidence = "low" ∨
    (buildFallbackAnalysis text).confidence = "medium" := by
  unfold buildFallbackAnalysis
  split_ifs
  · exact fallbackConfidence_low_or_medium text
  · left
    rfl

lemma one_le_topObservations_length (text : String) :
    1 ≤ (topObservations text).length := by
  unfold topObservations fallbackObservations
  rcases hr : fallbackObservationsRaw text with _ | ⟨a, l⟩
  · simp
  · simp

lemma buildFallback_observations_ne_nil (text : String) :
    (buildFallbackAnalysis text).observations ≠ [] := by
  unfold buildFallbackAnalysis
  split_ifs
  · have h1 := one_le_topObservations_length text
    intro h
    have h' : topObservations text = [] := h
    rw [h'] at h1
    simp at h1
  · simp [implausibleResult]

lemma handleCaughtError_remoteCalled (text userId name message : String) :
    (handleCaughtError text userId name message).remoteCalled = true := by
  unfold handleCaughtError
  split_ifs <;> rfl

/-! ### C2 (corrected) -/

/-- C2 counterexample to the claim as stated: the input
"asdf, qwer, zxcv" has at least 2 commas yet is treated as implausible
(it contains no signal word, and the code requires at least one signal
word even when two commas are present). -/
theorem fallback_implausibility_counterexample :
    2 ≤ countCommas "asdf, qwer, zxcv"
  ∧ buildFallbackAnalysis "asdf, qwer, zxcv" = implausibleResult := by
  constructor
  · decide
  · decide

/-- C2 (amended): the fallback heuristic engine returns the fixed
implausible-input result exactly when fewer than 2 signal words are
found AND (the text has fewer than 2 commas OR no signal word at all);
in particular "asdf qwer zxcv" yields the fixed result, whose
confidence is "low". -/
theorem fallback_implausibility_condition (text : String) :
    (buildFallbackAnalysis text = implausibleResult ↔
      signalMatchCount text < 2 ∧ (countCommas text < 2 ∨ signalMatchCount text = 0))
  ∧ buildFallbackAnalysis "asdf qwer zxcv" = implausibleResult
  ∧ implausibleResult.confidence = "low" := by
  refine ⟨?_, by decide, rfl⟩
  by_cases h : looksLikeIngredients text
  · have hmain : buildFallbackAnalysis text = fallbackMainResult text := by
      simp [buildFallbackAnalysis, h]
    rw [hmain]
    constructor
    · intro hc
      exact absurd hc (fallbackMainResult_ne_implausibleResult text)
    · intro hc
      have := (looksLike_false_iff text).mpr hc
      rw [h] at this
      cases this
  · have hf : looksLikeIngredients text = false := by simpa using h
    have himpl : buildFallbackAnalysis text = implausibleResult := by
      simp [buildFallbackAnalysis, hf]
    rw [himpl]
    simp only [true_iff]
    exact (looksLike_false_iff text).mp hf

/-! ### C7 -/

lemma fallbackConfidence_medium_iff (text : String) :
    fallbackConfidence text = "medium" ↔ 3 ≤ (fallbackObservationsRaw text).length := by
  unfold fallbackConfidence topObservations fallbackObservations
  rcases hr : fallbackObservationsRaw text with _ | ⟨a, _ | ⟨b, _ | ⟨c, l⟩⟩⟩
  · simp
  · simp
  · simp
  · simp [List.take_cons]

/-- C7: the fallback confidence is "medium" exactly when at least 3
factors triggered, else "low"; in particular the fallback never claims
confidence "high". -/
theorem fallback_confidence_policy (text : String) :
    ((buildFallbackAnalysis text).confidence = "low" ∨
     (buildFallbackAnalysis text).confidence = "medium")
  ∧ (buildFallbackAnalysis text).confidence ≠ "high"
  ∧ (looksLikeIngredients text = true →
      ((buildFallbackAnalysis text).confidence = "medium" ↔
        3 ≤ (fallbackObservationsRaw text).length)) := by
  refine ⟨buildFallback_confidence_cases text, ?_, ?_⟩
  · rcases buildFallback_confidence_cases text with h | h <;> rw [h] <;> decide
  · intro h
    have hmain : buildFallbackAnalysis text = fallbackMainResult text := by
      simp [buildFallbackAnalysis, h]
    rw [hmain]
    exact fallbackConfidence_medium_iff text

/-- C7 witness: a plausible input with 4 triggered factors gets
confidence "medium". -/
theorem fallback_confidence_policy_witness :
    (buildFallbackAnalysis "water, sugar, benzoate, red 40").confidence = "medium" :=
  ((fallback_confidence_policy "water, sugar, benzoate, red 40").2.2 (by decide)).mpr
    (by decide)

/-! ### C9 -/

/-- C9: `analyzeIngredients` makes no remote invocation when input
validation fails (throwing the validation message) or when no session
exists (throwing the must-sign-in message); the remote function is
invoked whenever both guards pass. -/
theorem no_remote_call_before_guards (ingredients : Option String)
    (sess : SessionOutcome) (inv : InvokeOutcome) :
    (∀ e, validateInput ingredients = .invalid e →
      analyzeIngredients ingredients sess inv = ⟨.err e, false, []⟩)
  ∧ (∀ t, validateInput ingredients = .valid t → sess = .got none →
      analyzeIngredients ingredients sess inv =
        ⟨.err "You must be signed in to analyze ingredients. Please sign in and try again.",
         false, []⟩)
  ∧ (∀ t s, validateInput ingredients = .valid t → sess = .got (some s) →
      (analyzeIngredients ingredients sess inv).remoteCalled = true) := by
  refine ⟨?_, ?_, ?_⟩
  · intro e h
    simp [analyzeIngredients, h]
  · intro t h hs
    subst hs
    simp [analyzeIngredients, h]
  · intro t s h hs
    subst hs
    simp only [analyzeIngredients, h]
    cases inv with
    | thrown name message => exact handleCaughtError_remoteCalled t s.userId name message
    | resolved data error =>
      cases error with
      | some e => exact handleCaughtError_remoteCalled t s.userId "Error" (invokeErrorMessage e)
      | none =>
        by_cases h1 : isObjectLike data
        · by_cases h2 : clientRequiredFields.all (fun f => jsHasField data f)
          · simp [h1, h2]
          · have h2f : clientRequiredFields.all (fun f => jsHasField data f) = false := by
              simpa using h2
            simp [h1, h2f, handleCaughtError_remoteCalled]
        · have h1f : isObjectLike data = false := by simpa using h1
          simp [h1f, handleCaughtError_remoteCalled]

/-- C9 witness: with a valid input but no session, the run throws the
must-sign-in message with no remote invocation. -/
theorem no_remote_call_before_guards_witness :
    analyzeIngredients (some "Water, Sugar, Natural Flavors, Citric Acid") (.got none)
      (.resolved .null none) =
      ⟨.err "You must be signed in to analyze ingredients. Please sign in and try again.",
       false, []⟩ :=
  (no_remote_call_before_guards (some "Water, Sugar, Natural Flavors, Citric Acid")
    (.got none) (.resolved .null none)).2.1
    "Water, Sugar, Natural Flavors, Citric Acid" rfl rfl

/-! ### C1 (corrected) -/

/-- A response carrying every required field under the server-side
alias names (`key_factors`, `tradeoffs`, `uncertainty`). -/
def aliasClientData : Json :=
  .obj [("judgment", .str "a judgment"),
        ("key_factors", .arr [.obj [("factor", .str "f"), ("explanation", .str "e")]]),
        ("tradeoffs", .str "a tradeoff"),
        ("uncertainty", .str "an uncertainty"),
        ("confidence", .str "low")]

/-- A response carrying the exact field names the client requires. -/
def exactClientData : Json :=
  .obj [("judgment", .str "a judgment"),
        ("observations", .arr [.obj [("observation", .str "o"), ("why", .str "w")]]),
        ("tradeoff", .str "a tradeoff"),
        ("limitations", .str "a limitation"),
        ("confidence", .str "low")]

/-- C1 counterexample to the claim as stated: a parsed object that
contains every required field under its aliases (`judgment`,
`key_factors`, `tradeoffs`, `uncertainty`, `confidence`) is
nevertheless rejected with the "Incomplete analysis response" error:
the client validator does not accept aliases. -/
theorem client_response_validator_alias_counterexample :
    jsHasField aliasClientData "judgment" = true
  ∧ jsHasField aliasClientData "key_factors" = true
  ∧ jsHasField aliasClientData "tradeoffs" = true
  ∧ jsHasField aliasClientData "uncertainty" = true
  ∧ jsHasField aliasClientData "confidence" = true
  ∧ isObjectLike aliasClientData = true
  ∧ analyzeIngredients (some "Water, Sugar, Citric Acid")
      (.got (some ⟨"user-1", "token-1"⟩)) (.resolved aliasClientData none) =
      ⟨.err "Incomplete analysis response. Please try again.", true, []⟩ :=
  ⟨rfl, rfl, rfl, rfl, rfl, rfl, rfl⟩

/-- C1 (amended): the client response validator accepts a parsed value
exactly when it is object-like and contains every one of the literal
fields `judgment`, `observations`, `tradeoff`, `limitations`,
`confidence` (aliases are not accepted); when a required field is
missing it throws the "Incomplete analysis response" error and
persists nothing, and when the value is not an object it throws the
"Invalid response" error. -/
theorem client_response_validator_exact_fields (ingredients : Option String)
    (t : String) (s : Session) (data : Json)
    (hv : validateInput ingredients = .valid t) :
    (isObjectLike data = false →
      analyzeIngredients ingredients (.got (some s)) (.resolved data none) =
        ⟨.err "Invalid response from analysis service. Please try again.", true, []⟩)
  ∧ (isObjectLike data = true →
      clientRequiredFields.all (fun f => jsHasField data f) = false →
      analyzeIngredients ingredients (.got (some s)) (.resolved data none) =
        ⟨.err "Incomplete analysis response. Please try again.", true, []⟩)
  ∧ (isObjectLike data = true →
      clientRequiredFields.all (fun f => jsHasField data f) = true →
      analyzeIngredients ingredients (.got (some s)) (.resolved data none) =
        ⟨.ok data, true, [localRecord data t s.userId]⟩) := by
  refine ⟨?_, ?_, ?_⟩
  · intro h1
    simp [analyzeIngredients, hv, h1]
    rfl
  · intro h1 h2
    simp [analyzeIngredients, hv, h1, h2]
    rfl
  · intro h1 h2
    simp [analyzeIngredients, hv, h1, h2]

/-- C1 witness: a response with the exact required field names is
accepted, returned, and persisted locally. -/
theorem client_response_validator_exact_fields_witness :
    analyzeIngredients (some "Water, Sugar, Citric Acid")
      (.got (some ⟨"user-1", "token-1"⟩)) (.resolved exactClientData none) =
      ⟨.ok exactClientData, true,
       [localRecord exactClientData "Water, Sugar, Citric Acid" "user-1"]⟩ :=
  (client_response_validator_exact_fields (some "Water, Sugar, Citric Acid")
    "Water, Sugar, Citric Acid" ⟨"user-1", "token-1"⟩ exactClientData rfl).2.2 rfl rfl

/-! ### C3 (corrected) -/

/-- C3 counterexample to the claim as stated: an invoke outcome whose
error message signals a connectivity/transport failure
(`FunctionsFetchError`, the "cannot reach service" class of §4.3) is
remapped to the "Unable to reach the analysis service" message and
rethrown: no fallback analysis is returned and nothing is persisted to
the local fallback store. -/
theorem fallback_transport_counterexample :
    invokeErrorMessage ⟨some "FunctionsFetchError", none⟩ =
      "Unable to reach the analysis service. Please check your connection and try again."
  ∧ analyzeIngredients (some "Water, Sugar, Citric Acid")
      (.got (some ⟨"user-1", "token-1"⟩))
      (.resolved .null (some ⟨some "FunctionsFetchError", none⟩)) =
      ⟨.err "Unable to reach the analysis service. Please check your connection and try again.",
       true, []⟩ :=
  ⟨rfl, rfl⟩

/-- C3 (amended): when the remote invocation throws a non-abort
exception whose message carries one of the transport markers tested by
the catch block, `analyzeIngredients` returns the complete,
schema-conforming fallback analysis (all five required fields present,
non-empty observations, confidence in {low, medium}) and persists it
to the local fallback store; an invoke error classified as an auth
failure is rethrown as "Session expired" and never triggers the
fallback.  (A resolved invoke error whose message contains
"FunctionsFetchError" is remapped and rethrown instead of falling
back.) -/
theorem fallback_on_thrown_transport_failure (ingredients : Option String)
    (t : String) (s : Session) (name message : String)
    (hv : validateInput ingredients = .valid t)
    (hn : name ≠ "AbortError")
    (hm : isNetworkish message = true) :
    analyzeIngredients ingredients (.got (some s)) (.thrown name message) =
      ⟨.ok (buildFallbackAnalysis t).toJson, true,
       [localRecord (buildFallbackAnalysis t).toJson t s.userId]⟩
  ∧ clientRequiredFields.all
      (fun f => jsHasField (buildFallbackAnalysis t).toJson f) = true
  ∧ (buildFallbackAnalysis t).observations ≠ []
  ∧ ((buildFallbackAnalysis t).confidence = "low" ∨
     (buildFallbackAnalysis t).confidence = "medium")
  ∧ (∀ e : ErrObj, errMsgIncludes e "FunctionsFetchError" = false →
      errMsgIncludes e "non-2xx" = false →
      (errMsgIncludes e "AuthApiError" = true ∨ e.status = some 401) →
      analyzeIngredients ingredients (.got (some s)) (.resolved .null (some e)) =
        ⟨.err "Session expired. Please sign in again.", true, []⟩) := by
  have hnb : (name == "AbortError") = false := by simpa using hn
  refine ⟨?_, rfl, buildFallback_observations_ne_nil t,
    buildFallback_confidence_cases t, ?_⟩
  · simp [analyzeIngredients, hv, handleCaughtError, hnb, hm]
  · intro e h1 h2 h3
    have hmsg : invokeErrorMessage e = "Session expired. Please sign in again." := by
      have h3b : (errMsgIncludes e "AuthApiError" || e.status == some 401) = true := by
        rcases h3 with h | h
        · simp [h]
        · simp [h]
      simp [invokeErrorMessage, h1, h2, h3b]
    simp [analyzeIngredients, hv, hmsg]
    rfl

/-- C3 witness: a thrown "Failed to fetch" exception yields the
persisted fallback result. -/
theorem fallback_on_thrown_transport_failure_witness :
    analyzeIngredients (some "Water, Sugar, Citric Acid")
      (.got (some ⟨"user-1", "token-1"⟩)) (.thrown "TypeError" "Failed to fetch") =
      ⟨.ok (buildFallbackAnalysis "Water, Sugar, Citric Acid").toJson, true,
       [localRecord (buildFallbackAnalysis "Water, Sugar, Citric Acid").toJson
          "Water, Sugar, Citric Acid" "user-1"]⟩ :=
  (fallback_on_thrown_transport_failure (some "Water, Sugar, Citric Acid")
    "Water, Sugar, Citric Acid" ⟨"user-1", "token-1"⟩ "TypeError" "Failed to fetch"
    rfl (by decide) (by decide)).1

/-! ### Retry-loop computation lemmas -/

lemma llmRetryLoop_ok (oracle : Nat → LLMAttempt) (k : Nat) (r : Json)
    (h : callLLM (oracle k) = .ok r) :
    llmRetryLoop oracle k = ⟨.ok r, k + 1, []⟩ := by
  rw [llmRetryLoop, h]

lemma llmRetryLoop_err_last (oracle : Nat → LLMAttempt) (e : String)
    (h : callLLM (oracle 2) = .error e) :
    llmRetryLoop oracle 2 = ⟨.error unavailableMessage, 3, []⟩ := by
  rw [llmRetryLoop, h]
  simp [MAX_RETRIES]

lemma llmRetryLoop_err_step (oracle : Nat → LLMAttempt) (k : Nat) (e : String)
    (hk : k < 2) (h : callLLM (oracle k) = .error e) :
    llmRetryLoop oracle k =
      ⟨(llmRetryLoop oracle (k + 1)).result, (llmRetryLoop oracle (k + 1)).attempts,
       1000 * 2 ^ k :: (llmRetryLoop oracle (k + 1)).backoffsMs⟩ := by
  rw [llmRetryLoop, h]
  have hle : ¬ (k + 1 > MAX_RETRIES) := by
    simp [MAX_RETRIES]
    omega
  simp [hle]

/-- One-shot unfolding of the retry loop into its at most three
attempts. -/
lemma serveLLMStage_eq (oracle : Nat → LLMAttempt) :
    serveLLMStage oracle =
      match callLLM (oracle 0) with
      | .ok r => ⟨.ok r, 1, []⟩
      | .error _ =>
        match callLLM (oracle 1) with
        | .ok r => ⟨.ok r, 2, [1000]⟩
        | .error _ =>
          match callLLM (oracle 2) with
          | .ok r => ⟨.ok r, 3, [1000, 2000]⟩
          | .error _ => ⟨.error unavailableMessage, 3, [1000, 2000]⟩ := by
  unfold serveLLMStage
  cases h0 : callLLM (oracle 0) with
  | ok r0 => rw [llmRetryLoop_ok oracle 0 r0 h0]
  | error e0 =>
    rw [llmRetryLoop_err_step oracle 0 e0 (by omega) h0]
    cases h1 : callLLM (oracle 1) with
    | ok r1 =>
      rw [llmRetryLoop_ok oracle 1 r1 h1]
      rfl
    | error e1 =>
      rw [llmRetryLoop_err_step oracle 1 e1 (by omega) h1]
      cases h2 : callLLM (oracle 2) with
      | ok r2 =>
        rw [llmRetryLoop_ok oracle 2 r2 h2]
        rfl
      | error e2 =>
        rw [llmRetryLoop_err_last oracle e2 h2]
        rfl

/-- A well-formed model output satisfying `validateResponse`. -/
def goodLLMOutput : Json :=
  .obj [("judgment", .str "a judgment"),
        ("key_factors", .arr [.obj [("factor", .str "f"), ("explanation", .str "e")]]),
        ("tradeoffs", .str "a tradeoff"),
        ("uncertainty", .str "an uncertainty"),
        ("confidence", .str "medium")]

/-! ### C5 -/

/-- C5: the model is called at most 3 times; the waits between
attempts are exponential (1s then 2s); the first successful attempt's
validated result is returned; and the 503 "temporarily unavailable"
error is produced exactly when all 3 attempts fail. -/
theorem llm_retry_policy (oracle : Nat → LLMAttempt) :
    (serveLLMStage oracle).attempts ≤ 3
  ∧ ((serveLLMStage oracle).result = .error unavailableMessage ↔
      ∀ k < 3, ∃ e, callLLM (oracle k) = .error e)
  ∧ ((∀ k < 3, ∃ e, callLLM (oracle k) = .error e) →
      (serveLLMStage oracle).attempts = 3 ∧
      (serveLLMStage oracle).backoffsMs = [1000, 2000])
  ∧ (∀ k r, k < 3 → callLLM (oracle k) = .ok r →
      (∀ j < k, ∃ e, callLLM (oracle j) = .error e) →
      (serveLLMStage oracle).result = .ok r ∧
      (serveLLMStage oracle).attempts = k + 1 ∧
      (serveLLMStage oracle).backoffsMs = (List.range k).map (fun i => 1000 * 2 ^ i)) := by
  have hs := serveLLMStage_eq oracle
  cases h0 : callLLM (oracle 0) with
  | ok r0 =>
    rw [h0] at hs
    simp only [] at hs
    rw [hs]
    refine ⟨by simp, ?_, ?_, ?_⟩
    · constructor
      · intro h
        simp at h
      · intro hall
        obtain ⟨e, he⟩ := hall 0 (by omega)
        rw [h0] at he
        simp at he
    · intro hall
      obtain ⟨e, he⟩ := hall 0 (by omega)
      rw [h0] at he
      simp at he
    · intro k r hk hok hprev
      match k, hk with
      | 0, _ =>
        rw [h0] at hok
        simp only [Except.ok.injEq] at hok
        subst hok
        exact ⟨rfl, rfl, rfl⟩
      | 1, _ =>
        obtain ⟨e, he⟩ := hprev 0 (by omega)
        rw [h0] at he
        simp at he
      | 2, _ =>
        obtain ⟨e, he⟩ := hprev 0 (by omega)
        rw [h0] at he
        simp at he
  | error e0 =>
    rw [h0] at hs
    simp only [] at hs
    cases h1 : callLLM (oracle 1) with
    | ok r1 =>
      rw [h1] at hs
      simp only [] at hs
      rw [hs]
      refine ⟨by simp, ?_, ?_, ?_⟩
      · constructor
        · intro h
          simp at h
        · intro hall
          obtain ⟨e, he⟩ := hall 1 (by omega)
          rw [h1] at he
          simp at he
      · intro hall
        obtain ⟨e, he⟩ := hall 1 (by omega)
        rw [h1] at he
        simp at he
      · intro k r hk hok hprev
        match k, hk with
        | 0, _ =>
          rw [h0] at hok
          simp at hok
        | 1, _ =>
          rw [h1] at hok
          simp only [Except.ok.injEq] at hok
          subst hok
          exact ⟨rfl, rfl, rfl⟩
        | 2, _ =>
          obtain ⟨e, he⟩ := hprev 1 (by omega)
          rw [h1] at he
          simp at he
    | error e1 =>
      rw [h1] at hs
      simp only [] at hs
      cases h2 : callLLM (oracle 2) with
      | ok r2 =>
        rw [h2] at hs
        simp only [] at hs
        rw [hs]
        refine ⟨by simp, ?_, ?_, ?_⟩
        · constructor
          · intro h
            simp at h
          · intro hall
            obtain ⟨e, he⟩ := hall 2 (by omega)
            rw [h2] at he
            simp at he
        · intro hall
          obtain ⟨e, he⟩ := hall 2 (by omega)
          rw [h2] at he
          simp at he
        · intro k r hk hok hprev
          match k, hk with
          | 0, _ =>
            rw [h0] at hok
            simp at hok
          | 1, _ =>
            rw [h1] at hok
            simp at hok
          | 2, _ =>
            rw [h2] at hok
            simp only [Except.ok.injEq] at hok
            subst hok
            exact ⟨rfl, rfl, rfl⟩
      | error e2 =>
        rw [h2] at hs
        simp only [] at hs
        rw [hs]
        refine ⟨by simp, ?_, ?_, ?_⟩
        · simp only [true_iff]
          intro k hk
          match k, hk with
          | 0, _ => exact ⟨e0, h0⟩
          | 1, _ => exact ⟨e1, h1⟩
          | 2, _ => exact ⟨e2, h2⟩
        · intro _
          exact ⟨rfl, rfl⟩
        · intro k r hk hok hprev
          match k, hk with
          | 0, _ =>
            rw [h0] at hok
            simp at hok
          | 1, _ =>
            rw [h1] at hok
            simp at hok
          | 2, _ =>
            rw [h2] at hok
            simp at hok

/-- C5 witness: an oracle failing twice then succeeding makes exactly
3 attempts with 1s and 2s waits and returns the validated result. -/
theorem llm_retry_policy_witness :
    (serveLLMStage (fun k => if k < 2 then .fails "boom" else .content goodLLMOutput)).result
      = .ok goodLLMOutput
  ∧ (serveLLMStage (fun k => if k < 2 then .fails "boom" else .content goodLLMOutput)).attempts
      = 3
  ∧ (serveLLMStage (fun k => if k < 2 then .fails "boom" else .content goodLLMOutput)).backoffsMs
      = (List.range 2).map (fun i => 1000 * 2 ^ i) :=
  (llm_retry_policy (fun k => if k < 2 then .fails "boom" else .content goodLLMOutput)).2.2.2
    2 goodLLMOutput (by omega) (by rfl)
    (by
      intro j hj
      refine ⟨"boom", ?_⟩
      match j, hj with
      | 0, _ => rfl
      | 1, _ => rfl)

/-! ### C6 -/

lemma callLLM_ok_validated (a : LLMAttempt) (r : Json) (h : callLLM a = .ok r) :
    validateResponse r = true := by
  cases a with
  | fails m => simp [callLLM] at h
  | content p =>
    by_cases hv : validateResponse p
    · simp only [callLLM, hv, if_true, Except.ok.injEq] at h
      subst h
      exact hv
    · simp [callLLM, hv] at h

lemma serveLLMStage_ok_validated (oracle : Nat → LLMAttempt) (r : Json)
    (h : (serveLLMStage oracle).result = .ok r) :
    validateResponse r = true := by
  have hs := serveLLMStage_eq oracle
  cases h0 : callLLM (oracle 0) with
  | ok r0 =>
    rw [h0] at hs
    simp only [] at hs
    rw [hs] at h
    simp only [Except.ok.injEq] at h
    subst h
    exact callLLM_ok_validated (oracle 0) _ h0
  | error e0 =>
    rw [h0] at hs
    simp only [] at hs
    cases h1 : callLLM (oracle 1) with
    | ok r1 =>
      rw [h1] at hs
      simp only [] at hs
      rw [hs] at h
      simp only [Except.ok.injEq] at h
      subst h
      exact callLLM_ok_validated (oracle 1) _ h1
    | error e1 =>
      rw [h1] at hs
      simp only [] at hs
      cases h2 : callLLM (oracle 2) with
      | ok r2 =>
        rw [h2] at hs
        simp only [] at hs
        rw [hs] at h
        simp only [Except.ok.injEq] at h
        subst h
        exact callLLM_ok_validated (oracle 2) _ h2
      | error e2 =>
        rw [h2] at hs
        simp only [] at hs
        rw [hs] at h
        simp at h

/-- C6: a row is handed to the `analyses` insert only when it was built
from model output that passed `validateResponse` (judgment, tradeoffs,
uncertainty strings, key_factors an array of factor/explanation string
pairs, confidence one of low/medium/high); malformed parsed model
output makes `callLLM` raise instead, so no unvalidated record is ever
written. -/
theorem fail_closed_persistence (userId inputText : String)
    (oracle : Nat → LLMAttempt) (db : Json → DbOutcome) :
    (∀ parsed, validateResponse parsed = false →
      callLLM (.content parsed) = .error "LLM response does not match required schema")
  ∧ (∀ payload, (servePostValidation userId inputText oracle db).inserted = some payload →
      ∃ llm, (serveLLMStage oracle).result = .ok llm ∧ validateResponse llm = true ∧
        payload = insertPayload userId inputText llm) := by
  constructor
  · intro parsed h
    simp [callLLM, h]
  · intro payload h
    unfold servePostValidation at h
    split at h
    next e heq =>
      simp at h
    next llm heq =>
      split at h
      next row hdb =>
        simp only [Option.some.injEq] at h
        exact ⟨llm, heq, serveLLMStage_ok_validated oracle llm heq, h.symm⟩
      next hdb =>
        simp at h

/-- C6 witness: with a well-formed model output and a succeeding
database, the inserted payload is exactly the validated output's
fields. -/
theorem fail_closed_persistence_witness :
    ∃ llm, (serveLLMStage (fun _ => .content goodLLMOutput)).result = .ok llm ∧
      validateResponse llm = true ∧
      insertPayload "user-1" "Water, Sugar, Citric Acid" goodLLMOutput =
        insertPayload "user-1" "Water, Sugar, Citric Acid" llm :=
  (fail_closed_persistence "user-1" "Water, Sugar, Citric Acid"
    (fun _ => .content goodLLMOutput) (fun p => .saved p)).2
    (insertPayload "user-1" "Water, Sugar, Citric Acid" goodLLMOutput)
    (by
      unfold servePostValidation
      rw [serveLLMStage_eq]
      rfl)

/-! ### C10 -/

lemma lookup_append_of_none {l1 l2 : List (String × Json)} {k : String}
    (h : List.lookup k l1 = none) :
    List.lookup k (l1 ++ l2) = List.lookup k l2 := by
  induction l1 with
  | nil => rfl
  | cons p rest ih =>
    rcases p with ⟨a, b⟩
    rw [List.lookup_cons] at h
    rw [List.cons_append, List.lookup_cons]
    cases hk : (k == a) with
    | true =>
      rw [hk] at h
      simp at h
    | false =>
      rw [hk] at h
      simp only at h ⊢
      exact ih h

lemma lookup_filter_out_key (fields : List (String × Json))
    (extra : List (String × Json)) (k : String)
    (hk : extra.any (fun q => q.1 == k) = true) :
    List.lookup k (fields.filter (fun p => !(extra.any (fun q => q.1 == p.1)))) = none := by
  induction fields with
  | nil => rfl
  | cons p rest ih =>
    obtain ⟨a, b⟩ := p
    rw [List.filter_cons]
    dsimp only
    cases hkeep : extra.any (fun q => q.1 == a) with
    | true =>
      simp only [hkeep, Bool.not_true, if_false]
      exact ih
    | false =>
      have hne : (k == a) = false := by
        by_cases he : k = a
        · rw [he] at hk
          rw [hk] at hkeep
          cases hkeep
        · simpa using he
      simp only [hkeep, Bool.not_false, if_true, List.lookup_cons, hne]
      exact ih

lemma jsGet_spreadWith_override (j : Json) (k : String) (v : Json)
    (extra : List (String × Json))
    (hk : extra.any (fun q => q.1 == k) = true)
    (hlook : List.lookup k extra = some v) :
    jsGet (jsSpreadWith j extra) k = some v := by
  cases j with
  | obj fields =>
    simp only [jsSpreadWith, jsGet]
    rw [lookup_append_of_none (lookup_filter_out_key fields extra k hk)]
    exact hlook
  | null => simpa [jsSpreadWith, jsGet] using hlook
  | bool b => simpa [jsSpreadWith, jsGet] using hlook
  | num n => simpa [jsSpreadWith, jsGet] using hlook
  | str s => simpa [jsSpreadWith, jsGet] using hlook
  | arr items => simpa [jsSpreadWith, jsGet] using hlook

/-- C10: when the database insert fails after a successful validated
model call, the endpoint still responds with status 200, a body that is
the analysis fields spread together with `id = null` and the warning
field, and nothing is written to the analyses store. -/
theorem db_failure_still_200 (userId inputText : String)
    (oracle : Nat → LLMAttempt) (llm : Json)
    (h : (serveLLMStage oracle).result = .ok llm) :
    (servePostValidation userId inputText oracle (fun _ => .failed)).response.status = 200
  ∧ (servePostValidation userId inputText oracle (fun _ => .failed)).response.body =
      jsSpreadWith llm [("id", .null), ("warning", .str dbFailWarning)]
  ∧ jsGet ((servePostValidation userId inputText oracle (fun _ => .failed)).response.body)
      "id" = some .null
  ∧ jsGet ((servePostValidation userId inputText oracle (fun _ => .failed)).response.body)
      "warning" = some (.str dbFailWarning)
  ∧ (servePostValidation userId inputText oracle (fun _ => .failed)).inserted = none := by
  have hrun : servePostValidation userId inputText oracle (fun _ => .failed) =
      ⟨none, ⟨200, jsSpreadWith llm [("id", .null), ("warning", .str dbFailWarning)]⟩⟩ := by
    unfold servePostValidation
    rw [h]
  rw [hrun]
  refine ⟨rfl, rfl, ?_, ?_, rfl⟩
  · exact jsGet_spreadWith_override llm "id" .null _ rfl rfl
  · exact jsGet_spreadWith_override llm "warning" (.str dbFailWarning) _ rfl rfl

/-- C10 witness: concrete run with a failing database. -/
theorem db_failure_still_200_witness :
    (servePostValidation "user-1" "Water, Sugar, Citric Acid"
      (fun _ => .content goodLLMOutput) (fun _ => .failed)).response.status = 200
  ∧ jsGet ((servePostValidation "user-1" "Water, Sugar, Citric Acid"
      (fun _ => .content goodLLMOutput) (fun _ => .failed)).response.body) "id" =
      some .null :=
  ⟨(db_failure_still_200 "user-1" "Water, Sugar, Citric Acid"
      (fun _ => .content goodLLMOutput) goodLLMOutput
      (by rw [serveLLMStage_eq]; rfl)).1,
   (db_failure_still_200 "user-1" "Water, Sugar, Citric Acid"
      (fun _ => .content goodLLMOutput) goodLLMOutput
      (by rw [serveLLMStage_eq]; rfl)).2.2.1⟩

end Encode
